import Mathlib

/-!
Verification of the MT5 trading system's command/result channel core.

This file shallowly embeds the mediation layer of the repository:
the client proxy `MT5CommandBase.send_command` (core/mt5_command_base.py)
and the singleton server `MT5Keeper` (core/mt5_keeper.py): its lock
acquisition and release, command-file processing, connection supervision
(reconnect and heartbeat), and the main loop.

The filesystem command/result channel is modelled as two association lists
keyed by the command id (the file stem of `commands/<id>.json` and
`results/<id>.json`).  Writing a file is `insertKey`, deleting it is
`eraseKey`, reading it is `lookupKey`.  A command entry whose stored value
is `none` stands for a file with malformed or unreadable content (in the
source, a file on which `json.load` raises).  The MetaTrader5 engine calls
made by the per-kind dispatch of `_execute_command` (lines 414-801 of
mt5_keeper.py) are the external Domain Executor and are modelled by an
oracle function `Engine`; the `not connected` guard at the top of
`_execute_command` (lines 407-408) is embedded explicitly.  Filesystem
operations that can fail in the source are given explicit outcome flags
(`writeOk`, `removeOk`, `shutdownOk`, ...).
-/

namespace MT5

/-- Directory model: look up the value stored under a key (reading the
file named `<k>.json` in a directory). -/
def lookupKey {β : Type} (k : String) : List (String × β) → Option β
  | [] => none
  | p :: t => if p.1 = k then some p.2 else lookupKey k t

/-- Directory model: remove the entry stored under a key (deleting the
file named `<k>.json`; a no-op when the file is absent). -/
def eraseKey {β : Type} (k : String) (l : List (String × β)) : List (String × β) :=
  l.filter (fun p => decide (p.1 ≠ k))

/-- Directory model: store a value under a key, overwriting any previous
entry (opening the file named `<k>.json` with mode `w`). -/
def insertKey {β : Type} (k : String) (v : β) (l : List (String × β)) : List (String × β) :=
  (k, v) :: eraseKey k l

theorem lookupKey_insertKey_self {β : Type} (k : String) (v : β) (l : List (String × β)) :
    lookupKey k (insertKey k v l) = some v := by
  simp [insertKey, lookupKey]

theorem lookupKey_eraseKey_self {β : Type} (k : String) (l : List (String × β)) :
    lookupKey k (eraseKey k l) = none := by
  induction l with
  | nil => rfl
  | cons p t ih =>
    by_cases hp : p.1 = k
    · simpa [eraseKey, List.filter, hp] using ih
    · simpa [eraseKey, List.filter, hp, lookupKey] using ih

theorem eraseKey_cons {β : Type} (k : String) (p : String × β) (t : List (String × β)) :
    eraseKey k (p :: t) = if p.1 = k then eraseKey k t else p :: eraseKey k t := by
  by_cases hp : p.1 = k <;> simp [eraseKey, List.filter, hp]

theorem lookupKey_eraseKey_ne {β : Type} {j k : String} (h : j ≠ k) (l : List (String × β)) :
    lookupKey j (eraseKey k l) = lookupKey j l := by
  induction l with
  | nil => rfl
  | cons p t ih =>
    rw [eraseKey_cons]
    by_cases hp : p.1 = k
    · rw [if_pos hp, ih]
      have hj : p.1 ≠ j := by
        rw [hp]; exact fun hc => h hc.symm
      simp [lookupKey, hj]
    · rw [if_neg hp]
      by_cases hpj : p.1 = j
      · simp [lookupKey, hpj]
      · simp [lookupKey, hpj, ih]

theorem lookupKey_insertKey_ne {β : Type} {j k : String} (h : j ≠ k) (v : β)
    (l : List (String × β)) :
    lookupKey j (insertKey k v l) = lookupKey j l := by
  have hk : k ≠ j := fun hc => h hc.symm
  simp [insertKey, lookupKey, hk]
  exact lookupKey_eraseKey_ne h l

/-- A command entry as written by `send_command` (mt5_command_base.py,
lines 183-187): the command kind and its parameters.  The `timestamp`
field is opaque to every claim and is omitted.  Parameter values are kept
opaque as strings. -/
structure CommandData where
  command : String
  params : List (String × String)
deriving Repr, DecidableEq

/-- A result entry as written by `_process_command_file` (mt5_keeper.py,
lines 343-361): correlation id, status (`success` or `error`), the payload
on success and the error message on failure.  The `timestamp` and
debug-only `traceback` fields are opaque to every claim and are omitted. -/
structure ResultData where
  command_id : String
  status : String
  result : Option String
  error : Option String
deriving Repr, DecidableEq

/-- The shared working-directory channel: the `commands/` and `results/`
directories, each a map from command id to entry.  A command entry holding
`none` models a file whose content is malformed or unreadable. -/
structure Channel where
  commands : List (String × Option CommandData)
  results : List (String × ResultData)
deriving Repr, DecidableEq

/-- The Domain Executor: the per-kind dispatch of `_execute_command`
(mt5_keeper.py, lines 414-801).  It maps a command kind and parameters to
a payload or an error message (a raised `ValueError` in the source).  The
concrete MetaTrader5 calls are external to the core, so the dispatch is an
oracle parameter. -/
abbrev Engine := String → List (String × String) → Except String String

/-- A concrete engine used for closed evaluations: every kind falls
through to the final `else` branch of `_execute_command` (mt5_keeper.py,
line 801) and raises `Comando non supportato`. -/
def engine0 : Engine := fun _ _ => Except.error "Comando non supportato"

/-- `MT5Keeper._execute_command` (mt5_keeper.py, lines 393-801): raise
`MT5 non connesso` when the keeper is not connected (lines 407-408),
otherwise dispatch to the Domain Executor. -/
def execute_command (connected : Bool) (engine : Engine) (command_type : String)
    (params : List (String × String)) : Except String String :=
  if connected = false then Except.error "MT5 non connesso"
  else engine command_type params

/-- Stands for the message of the exception raised when reading or JSON
decoding of a command file fails (mt5_keeper.py, lines 332-333). -/
def read_failure_message : String := "errore di lettura o decodifica del comando"

/-- The response record built by `_process_command_file` (mt5_keeper.py,
lines 330-361) for the entry stored under `command_id`: a success record
carrying the executor's payload, or an error record carrying the message
of the exception raised while reading, decoding or executing the command.
In every branch the source sets `"command_id": command_id` from the
command file's stem. -/
def keeperResponse (connected : Bool) (engine : Engine) (entry : Option (Option CommandData))
    (command_id : String) : ResultData :=
  match entry with
  | some (some cd) =>
    match execute_command connected engine cd.command cd.params with
    | Except.ok payload => { command_id := command_id, status := "success",
                             result := some payload, error := none }
    | Except.error e => { command_id := command_id, status := "error",
                          result := none, error := some e }
  | _ => { command_id := command_id, status := "error",
           result := none, error := some read_failure_message }

/-- `MT5Keeper._process_command_file` (mt5_keeper.py, lines 318-375):
read the command entry, execute it (any exception becomes an error
response), then write the result entry and afterwards remove the command
entry.  `writeOk` models whether writing the result file succeeds (line
365); `removeOk` models whether the subsequent `os.remove` succeeds (line
371).  When the result write raises, the command entry is not removed
(the `except` at line 374 only logs). -/
def processCommandFile (connected : Bool) (engine : Engine) (writeOk removeOk : Bool)
    (ch : Channel) (id : String) : Channel :=
  let resp := keeperResponse connected engine (lookupKey id ch.commands) id
  if writeOk then
    let ch1 : Channel := { ch with results := insertKey id resp ch.results }
    if removeOk then { ch1 with commands := eraseKey id ch1.commands } else ch1
  else ch

/-- The sequence of channel states visible to an outside reader during one
run of `_process_command_file`: the state at pickup, the state after the
result write (line 365-366), and the state after the command removal (line
371).  Failed steps truncate the sequence. -/
def processCommandFileTrace (connected : Bool) (engine : Engine) (writeOk removeOk : Bool)
    (ch : Channel) (id : String) : List Channel :=
  let resp := keeperResponse connected engine (lookupKey id ch.commands) id
  if writeOk then
    let ch1 : Channel := { ch with results := insertKey id resp ch.results }
    if removeOk then [ch, ch1, { ch1 with commands := eraseKey id ch1.commands }] else [ch, ch1]
  else [ch]

theorem processCommandFile_eq_last (connected : Bool) (engine : Engine)
    (writeOk removeOk : Bool) (ch : Channel) (id : String) :
    processCommandFile connected engine writeOk removeOk ch id =
      (processCommandFileTrace connected engine writeOk removeOk ch id).getLastD ch := by
  cases writeOk <;> cases removeOk <;>
    simp [processCommandFile, processCommandFileTrace]

/-- The client's consumption of its result entry (mt5_command_base.py,
lines 228-238): read the result file under the call's own command id,
then remove that file.  When no entry is present nothing happens (in the
source this point is only reached once `result_file.exists()`). -/
def consumeResult (ch : Channel) (id : String) : Option ResultData × Channel :=
  match lookupKey id ch.results with
  | none => (none, ch)
  | some r => (some r, { ch with results := eraseKey id ch.results })

/-- One observation by `send_command`'s polling loop (mt5_command_base.py,
lines 201-225): whether `result_file.exists()`, the wall-clock seconds
elapsed since `start_time` at this iteration's checks, and the outcome of
the `_check_keeper_running()` liveness pre-check. -/
structure PollObs where
  result_present : Bool
  elapsed : Nat
  keeper_alive : Bool
deriving Repr, DecidableEq

/-- How one run of `send_command`'s polling loop ends. -/
inductive WaitExit where
  | readResult
  | timeoutError
  | keeperGone
deriving Repr, DecidableEq

/-- The polling loop of `send_command` (mt5_command_base.py, lines
201-225), over the stream of observations the loop makes: exit to read
the result as soon as the result file exists; otherwise raise
`TimeoutError` when strictly more than `timeout` seconds have elapsed
(line 203, `time.time() - start_time > self.timeout`); otherwise raise
`RuntimeError` when the keeper-liveness pre-check fails (line 214);
otherwise sleep and poll again.  Returns the exit together with the index
of the observation that triggered it; `none` means the modelled
observation stream ran out while the loop was still polling. -/
def waitForResult (timeout : Nat) : List PollObs → Option (WaitExit × Nat)
  | [] => none
  | o :: rest =>
    if o.result_present = true then some (WaitExit.readResult, 0)
    else if timeout < o.elapsed then some (WaitExit.timeoutError, 0)
    else if o.keeper_alive = false then some (WaitExit.keeperGone, 0)
    else (waitForResult timeout rest).map (fun p => (p.1, p.2 + 1))

/-- The effect of `send_command` on the commands directory at loop exit:
on the `TimeoutError` path (lines 205-209) and on the `RuntimeError`
keeper-gone path (lines 216-220), a best-effort delete of the call's own
command file; on the read path the command file is not touched by the
client. -/
def sendCommandAbortEffect (e : WaitExit) (ch : Channel) (id : String) : Channel :=
  match e with
  | WaitExit.readResult => ch
  | _ => { ch with commands := eraseKey id ch.commands }

/-- The keeper's mutable state (mt5_keeper.py, lines 55-83): the loop and
connection flags, the heartbeat and reconnect bookkeeping with their
configured intervals (seconds), and whether this process holds an open
handle on the lock file. -/
structure KeeperState where
  running : Bool
  connected : Bool
  last_heartbeat : Nat
  last_reconnect_attempt : Nat
  heartbeat_interval : Nat
  reconnect_interval : Nat
  lock_handle : Bool
deriving Repr, DecidableEq

/-- `MT5Keeper._connect_mt5` (mt5_keeper.py, lines 227-281): on success
set `connected := true` (line 274); on failure return leaving the state
as it was (the failure returns at lines 248, 262, 271 do not assign
`self.connected`, and every call site already has `connected = false`).
The function never touches `last_heartbeat`. -/
def connect_mt5 (connectOk : Bool) (k : KeeperState) : KeeperState :=
  if connectOk then { k with connected := true } else k

/-- `MT5Keeper._disconnect_mt5` (mt5_keeper.py, lines 283-292):
`mt5.shutdown()` then `connected := false`; any exception is caught and
only logged, in which case `connected` keeps its value. -/
def disconnect_mt5 (shutdownOk : Bool) (k : KeeperState) : KeeperState :=
  if shutdownOk then { k with connected := false } else k

/-- `MT5Keeper._heartbeat` (mt5_keeper.py, lines 294-316): a successful
probe updates `last_heartbeat` to the current time; a failed probe sets
`connected := false` and leaves `last_heartbeat` unchanged. -/
def heartbeat_step (now : Nat) (hbOk : Bool) (k : KeeperState) : KeeperState :=
  if hbOk then { k with last_heartbeat := now } else { k with connected := false }

/-- The reconnect supervision block of the main loop (mt5_keeper.py,
lines 854-859): while disconnected, once at least `reconnect_interval`
seconds have passed since the last attempt, call `_connect_mt5` and then
record the attempt time `current_time` regardless of the outcome. -/
def reconnect_step (now : Nat) (connectOk : Bool) (k : KeeperState) : KeeperState :=
  if k.connected = false then
    if k.reconnect_interval ≤ now - k.last_reconnect_attempt then
      { connect_mt5 connectOk k with last_reconnect_attempt := now }
    else k
  else k

/-- `MT5Keeper._check_commands` (mt5_keeper.py, lines 803-816): list the
command files once (`glob`) and process each in turn. -/
def check_commands (connected : Bool) (engine : Engine) (writeOk removeOk : Bool)
    (ch : Channel) : Channel :=
  (ch.commands.map Prod.fst).foldl
    (fun acc id => processCommandFile connected engine writeOk removeOk acc id) ch

/-- The environment of one main-loop iteration: the current time and the
outcomes of the external operations the iteration may perform. -/
structure IterEnv where
  now : Nat
  connectOk : Bool
  hbOk : Bool
  writeOk : Bool
  removeOk : Bool
  stopSignal : Bool
  shutdownOk : Bool
deriving Repr, DecidableEq

/-- One iteration of the keeper's main loop body (mt5_keeper.py, lines
853-872): first the reconnect supervision block; then, only if connected,
drain the command directory and run the heartbeat probe when it is due
(`(current_time - self.last_heartbeat).total_seconds() >=
self.heartbeat_interval`, line 868).  While disconnected the iteration
only sleeps. -/
def loopIter (engine : Engine) (env : IterEnv) (k : KeeperState) (ch : Channel) :
    KeeperState × Channel :=
  let k1 := reconnect_step env.now env.connectOk k
  if k1.connected then
    let ch1 := check_commands k1.connected engine env.writeOk env.removeOk ch
    let k2 := if k1.heartbeat_interval ≤ env.now - k1.last_heartbeat then
        heartbeat_step env.now env.hbOk k1
      else k1
    (k2, ch1)
  else (k1, ch)

/-- The world shared between keeper processes: who holds the advisory
lock on `mt5keeper.lock` (by pid), and the command/result channel. -/
structure World where
  lockHolder : Option Nat
  chan : Channel
deriving Repr, DecidableEq

/-- Externally visible actions performed by `stop`. -/
inductive Action where
  | disconnectAttempted
  | releasedLock
deriving Repr, DecidableEq

/-- `MT5Keeper._release_lock` (mt5_keeper.py, lines 195-225): when a lock
file handle is open, unlock and close it (every failure along the way is
caught and logged) and set the handle to `None`; with no handle, do
nothing. -/
def release_lock (k : KeeperState) (w : World) : KeeperState × World × List Action :=
  if k.lock_handle then
    ({ k with lock_handle := false }, { w with lockHolder := none }, [Action.releasedLock])
  else (k, w, [])

/-- `MT5Keeper.stop` (mt5_keeper.py, lines 881-898): return immediately
when `running` is already false; otherwise clear `running`, call
`_disconnect_mt5` if connected, then `_release_lock`. -/
def stopKeeper (shutdownOk : Bool) (k : KeeperState) (w : World) :
    KeeperState × World × List Action :=
  if k.running = false then (k, w, [])
  else
    let k1 := { k with running := false }
    let p := if k1.connected then (disconnect_mt5 shutdownOk k1, [Action.disconnectAttempted])
      else (k1, ([] : List Action))
    let q := release_lock p.1 w
    (q.1, q.2.1, p.2 ++ q.2.2)

/-- `MT5Keeper._acquire_lock` (mt5_keeper.py, lines 164-193): take the
advisory lock non-blockingly — it succeeds exactly when no other process
holds it, and on failure the handle is closed again and the caller's
state is left as it was. -/
def acquire_lock (pid : Nat) (k : KeeperState) (w : World) : Bool × KeeperState × World :=
  if w.lockHolder.isSome then (false, k, w)
  else (true, { k with lock_handle := true }, { w with lockHolder := some pid })

/-- What `MT5Keeper.start` did before returning. -/
structure StartLog where
  lockAcquired : Bool
  connectAttempted : Bool
  loopEntered : Bool
deriving Repr, DecidableEq

/-- One pass of the `while self.running` loop together with signal
delivery: run the loop body if still running, then, when a stop signal
arrives during this iteration, `_signal_handler` (mt5_keeper.py, lines
818-827) calls `stop`. -/
def runIteration (engine : Engine) (env : IterEnv) (st : KeeperState × World) :
    KeeperState × World :=
  if st.1.running then
    let p := loopIter engine env st.1 st.2.chan
    let st1 : KeeperState × World := (p.1, { st.2 with chan := p.2 })
    if env.stopSignal then
      let q := stopKeeper env.shutdownOk st1.1 st1.2
      (q.1, q.2.1)
    else st1
  else st

/-- `MT5Keeper.start` (mt5_keeper.py, lines 829-879): acquire the lock
non-blockingly, returning at once on failure; on lock success attempt the
initial connection, releasing the lock and returning when `_connect_mt5`
reports failure; otherwise set `running := true`, run the main loop (here
over the given finite list of iteration environments), and in the
`finally` block call `stop`. -/
def startKeeper (engine : Engine) (pid : Nat) (connectOk shutdownOk : Bool)
    (iters : List IterEnv) (k : KeeperState) (w : World) :
    KeeperState × World × StartLog :=
  let a := acquire_lock pid k w
  if a.1 = false then (a.2.1, a.2.2, { lockAcquired := false, connectAttempted := false,
                                       loopEntered := false })
  else
    let k1 := connect_mt5 connectOk a.2.1
    if connectOk = false then
      let r := release_lock k1 a.2.2
      (r.1, r.2.1, { lockAcquired := true, connectAttempted := true, loopEntered := false })
    else
      let k2 := { k1 with running := true }
      let fin := iters.foldl (fun st env => runIteration engine env st) (k2, a.2.2)
      let s := stopKeeper shutdownOk fin.1 fin.2
      (s.1, s.2.1, { lockAcquired := true, connectAttempted := true, loopEntered := true })

/-- A configuration dictionary restricted to its numeric entries, which
are the only ones the audited claims read (`timeout`, `poll_interval` and
the keeper intervals); `dict.update` semantics. -/
abbrev ConfigMap := List (String × Rat)

/-- `dict.update`: every key of the overlay overwrites the base. -/
def updateConfig (base overlay : ConfigMap) : ConfigMap :=
  overlay.foldl (fun acc kv => insertKey kv.1 kv.2 acc) base

/-- The client's `default_config` (mt5_command_base.py, lines 72-76):
wait timeout 60 s, poll interval 0.5 s. -/
def client_default_config : ConfigMap := [("timeout", 60), ("poll_interval", 1/2)]

/-- The keeper's `default_config` (mt5_keeper.py, lines 99-109),
numeric entries: note `timeout` is the MetaTrader5 operation timeout in
milliseconds, 60000. -/
def keeper_default_config : ConfigMap :=
  [("account", 0), ("timeout", 60000), ("command_check_interval", 1),
   ("heartbeat_interval", 30), ("reconnect_interval", 60)]

/-- The configuration the keeper publishes to the shared working
directory as `config.json` (mt5_keeper.py, lines 122-129): its defaults
updated with the user configuration, when one was given. -/
def keeper_saved_config (userCfg : Option ConfigMap) : ConfigMap :=
  match userCfg with
  | some u => updateConfig keeper_default_config u
  | none => keeper_default_config

/-- `MT5CommandBase._load_config` (mt5_command_base.py, lines 62-101):
start from the client defaults, update with the shared working-directory
`config.json` when it exists, then update with the explicit user
configuration when one was given. -/
def client_load_config (workDirCfg : Option ConfigMap) (userCfg : Option ConfigMap) :
    ConfigMap :=
  let c1 := match workDirCfg with
    | some wc => updateConfig client_default_config wc
    | none => client_default_config
  match userCfg with
  | some uc => updateConfig c1 uc
  | none => c1

/-- `MT5CommandBase.__init__` (mt5_command_base.py, line 54):
`self.timeout = self.config.get("timeout", 10.0)`. -/
def client_timeout (c : ConfigMap) : Rat := (lookupKey "timeout" c).getD 10

/-- `MT5CommandBase.__init__` (mt5_command_base.py, line 55):
`self.poll_interval = self.config.get("poll_interval", 0.5)`. -/
def client_poll_interval (c : ConfigMap) : Rat := (lookupKey "poll_interval" c).getD (1/2)

/-! ## Claim theorems -/

/-- C3: if a Keeper's non-blocking lock acquisition fails because another
instance holds the lock, `start` returns immediately: no engine
connection is attempted, the main loop is not entered, the commands and
results collections are untouched, the lock stays with its holder, and
the starting process's own state is returned exactly as it was (the
first Keeper's in-process state, living in its own process, is not
reachable from `start` at all). -/
theorem second_keeper_start_is_inert (engine : Engine) (pid : Nat)
    (connectOk shutdownOk : Bool) (iters : List IterEnv) (k : KeeperState) (w : World)
    (h : w.lockHolder.isSome = true) :
    startKeeper engine pid connectOk shutdownOk iters k w =
      (k, w, { lockAcquired := false, connectAttempted := false, loopEntered := false }) := by
  simp [startKeeper, acquire_lock, h]

def kW3 : KeeperState :=
  { running := false, connected := false, last_heartbeat := 0, last_reconnect_attempt := 0,
    heartbeat_interval := 30, reconnect_interval := 60, lock_handle := false }

def wW3 : World :=
  { lockHolder := some 41, chan := { commands := [], results := [] } }

theorem second_keeper_start_is_inert_witness :
    startKeeper engine0 42 true true [] kW3 wW3 =
      (kW3, wW3, { lockAcquired := false, connectAttempted := false, loopEntered := false }) :=
  second_keeper_start_is_inert engine0 42 true true [] kW3 wW3 (by decide)

/-- C8: stopping a running Keeper clears `running`, attempts the engine
disconnect exactly when it was connected, and then releases the lock in
every case — for both outcomes of the disconnect step (`shutdownOk`
covers `mt5.shutdown()` failing, whose exception `_disconnect_mt5`
swallows), the lock handle is closed and the lock holder cleared, with
the release coming after the disconnect attempt in the action order. -/
theorem stop_releases_lock_unconditionally (shutdownOk : Bool) (k : KeeperState) (w : World)
    (hr : k.running = true) (hl : k.lock_handle = true) :
    (stopKeeper shutdownOk k w).2.2 =
      (if k.connected then [Action.disconnectAttempted] else []) ++ [Action.releasedLock] ∧
    (stopKeeper shutdownOk k w).1.lock_handle = false ∧
    (stopKeeper shutdownOk k w).2.1.lockHolder = none := by
  cases hc : k.connected <;> cases shutdownOk <;>
    simp [stopKeeper, hr, hc, disconnect_mt5, release_lock, hl]

def kW8 : KeeperState :=
  { running := true, connected := true, last_heartbeat := 0, last_reconnect_attempt := 0,
    heartbeat_interval := 30, reconnect_interval := 60, lock_handle := true }

def wW8 : World :=
  { lockHolder := some 7, chan := { commands := [], results := [] } }

theorem stop_releases_lock_unconditionally_witness :
    (stopKeeper false kW8 wW8).2.2 =
      (if kW8.connected then [Action.disconnectAttempted] else []) ++ [Action.releasedLock] ∧
    (stopKeeper false kW8 wW8).1.lock_handle = false ∧
    (stopKeeper false kW8 wW8).2.1.lockHolder = none :=
  stop_releases_lock_unconditionally false kW8 wW8 (by decide) (by decide)

theorem stopKeeper_of_not_running (sh : Bool) (k : KeeperState) (w : World)
    (h : k.running = false) : stopKeeper sh k w = (k, w, []) := by
  simp [stopKeeper, h]

theorem stopKeeper_clears_running (sh : Bool) (k : KeeperState) (w : World)
    (h : k.running = true) : (stopKeeper sh k w).1.running = false := by
  cases hc : k.connected <;> cases sh <;> cases hl : k.lock_handle <;>
    simp [stopKeeper, h, hc, hl, disconnect_mt5, release_lock]

/-- C10: `stop` on a Keeper whose `running` flag is already false is a
no-op — state, world and action list are untouched — and therefore in
the double invocation of `stop` that a stop signal produces (signal
handler, then the loop's `finally`), the second call does nothing and the
lock is released exactly once. -/
theorem stop_noop_when_not_running (sh sh2 : Bool) (k : KeeperState) (w : World)
    (k2 : KeeperState) (w2 : World)
    (h : k.running = false) (hr2 : k2.running = true) (hl2 : k2.lock_handle = true) :
    stopKeeper sh k w = (k, w, []) ∧
    stopKeeper sh2 (stopKeeper sh k2 w2).1 (stopKeeper sh k2 w2).2.1 =
      ((stopKeeper sh k2 w2).1, (stopKeeper sh k2 w2).2.1, []) ∧
    List.count Action.releasedLock (stopKeeper sh k2 w2).2.2 = 1 := by
  refine ⟨stopKeeper_of_not_running sh k w h,
    stopKeeper_of_not_running sh2 _ _ (stopKeeper_clears_running sh k2 w2 hr2), ?_⟩
  cases hc : k2.connected <;> cases sh <;>
    simp [stopKeeper, hr2, hc, disconnect_mt5, release_lock, hl2, List.count]

def kW10 : KeeperState :=
  { running := false, connected := false, last_heartbeat := 0, last_reconnect_attempt := 0,
    heartbeat_interval := 30, reconnect_interval := 60, lock_handle := false }

theorem stop_noop_when_not_running_witness :
    stopKeeper true kW10 wW3 = (kW10, wW3, []) ∧
    stopKeeper true (stopKeeper true kW8 wW8).1 (stopKeeper true kW8 wW8).2.1 =
      ((stopKeeper true kW8 wW8).1, (stopKeeper true kW8 wW8).2.1, []) ∧
    List.count Action.releasedLock (stopKeeper true kW8 wW8).2.2 = 1 :=
  stop_noop_when_not_running true true kW10 wW3 kW8 wW8 (by decide) (by decide) (by decide)

/-- C9 (code bug): with no configuration file at all the client's wait
bound is 60 s and its poll interval 0.5 s, as claimed; but when the
client loads the shared working-directory `config.json` that the Keeper
publishes (the Keeper's defaults contain `timeout: 60000`, its
MetaTrader5 operation timeout in milliseconds), the colliding `timeout`
key makes the client's wait bound 60000 seconds instead of the claimed
~60, while the poll interval stays 0.5 s. -/
theorem client_timeout_keeper_config_collision :
    client_timeout (client_load_config none none) = 60 ∧
    client_poll_interval (client_load_config none none) = 1/2 ∧
    client_timeout (client_load_config (some (keeper_saved_config none)) none) = 60000 ∧
    client_poll_interval (client_load_config (some (keeper_saved_config none)) none) = 1/2 := by
  refine ⟨?_, ?_, ?_, ?_⟩ <;> rfl

theorem keeperResponse_command_id (connected : Bool) (engine : Engine)
    (entry : Option (Option CommandData)) (id : String) :
    (keeperResponse connected engine entry id).command_id = id := by
  cases entry with
  | none => rfl
  | some oc =>
    cases oc with
    | none => rfl
    | some cd =>
      simp only [keeperResponse]
      cases execute_command connected engine cd.command cd.params <;> rfl

theorem processCommandFile_results_write (connected : Bool) (engine : Engine)
    (removeOk : Bool) (ch : Channel) (id : String) :
    (processCommandFile connected engine true removeOk ch id).results =
      insertKey id (keeperResponse connected engine (lookupKey id ch.commands) id)
        ch.results := by
  cases removeOk <;> simp [processCommandFile]

/-- C1: when the keeper processes the command entry stored under the id a
`send_command` call generated (and the result write succeeds), the record
that call then reads back is exactly the response the keeper published
under that id; that record's `command_id` field equals the id; and
consuming it erases only the entry under that id — result entries under
every other id are untouched.  The client's read and delete are keyed
solely by its own id (`consumeResult _ id`), so no other command's result
is ever read or deleted. -/
theorem send_command_correlation (connected : Bool) (engine : Engine) (removeOk : Bool)
    (ch : Channel) (id : String)
    (h : (lookupKey id ch.commands).isSome = true) :
    (consumeResult (processCommandFile connected engine true removeOk ch id) id).1 =
      some (keeperResponse connected engine (lookupKey id ch.commands) id) ∧
    (keeperResponse connected engine (lookupKey id ch.commands) id).command_id = id ∧
    (∀ j : String, j ≠ id →
      lookupKey j
          (consumeResult (processCommandFile connected engine true removeOk ch id) id).2.results =
        lookupKey j (processCommandFile connected engine true removeOk ch id).results) := by
  have hres := processCommandFile_results_write connected engine removeOk ch id
  have hlk : lookupKey id (processCommandFile connected engine true removeOk ch id).results =
      some (keeperResponse connected engine (lookupKey id ch.commands) id) := by
    rw [hres]; exact lookupKey_insertKey_self _ _ _
  refine ⟨?_, keeperResponse_command_id connected engine (lookupKey id ch.commands) id, ?_⟩
  · simp [consumeResult, hlk]
  · intro j hj
    simp only [consumeResult, hlk]
    exact lookupKey_eraseKey_ne hj _

def chW1 : Channel :=
  { commands := [("w1", some { command := "ping", params := [] })], results := [] }

theorem send_command_correlation_witness :
    (consumeResult (processCommandFile true engine0 true true chW1 "w1") "w1").1 =
      some (keeperResponse true engine0 (lookupKey "w1" chW1.commands) "w1") ∧
    (keeperResponse true engine0 (lookupKey "w1" chW1.commands) "w1").command_id = "w1" ∧
    lookupKey "other"
        (consumeResult (processCommandFile true engine0 true true chW1 "w1") "w1").2.results =
      lookupKey "other" (processCommandFile true engine0 true true chW1 "w1").results :=
  ⟨(send_command_correlation true engine0 true chW1 "w1" (by decide)).1,
   (send_command_correlation true engine0 true chW1 "w1" (by decide)).2.1,
   (send_command_correlation true engine0 true chW1 "w1" (by decide)).2.2 "other" (by decide)⟩

/-- C2: for a command entry the keeper picks up, every channel state
observable during `_process_command_file` — at pickup, after the result
write, after the command removal, and after any prefix of these steps
when a step fails — has the command entry present or the result entry
present under that id; "command entry absent and result entry absent" is
never observable after pickup. -/
theorem result_written_before_command_removed (connected : Bool) (engine : Engine)
    (writeOk removeOk : Bool) (ch : Channel) (id : String)
    (h : (lookupKey id ch.commands).isSome = true) :
    ∀ s ∈ processCommandFileTrace connected engine writeOk removeOk ch id,
      (lookupKey id s.commands).isSome = true ∨ (lookupKey id s.results).isSome = true := by
  intro s hs
  cases writeOk with
  | false =>
    simp [processCommandFileTrace] at hs
    subst hs
    exact Or.inl h
  | true =>
    cases removeOk with
    | false =>
      simp [processCommandFileTrace] at hs
      rcases hs with hs | hs <;> subst hs
      · exact Or.inl h
      · exact Or.inl h
    | true =>
      simp [processCommandFileTrace] at hs
      rcases hs with hs | hs | hs <;> subst hs
      · exact Or.inl h
      · exact Or.inl h
      · exact Or.inr (by rw [lookupKey_insertKey_self]; rfl)

def chW2 : Channel :=
  { commands := [("w2", some { command := "ping", params := [] })], results := [] }

def chF2 : Channel :=
  { commands := [],
    results := [("w2", { command_id := "w2", status := "error", result := none,
                         error := some "Comando non supportato" })] }

theorem result_written_before_command_removed_witness :
    (lookupKey "w2" chF2.commands).isSome = true ∨
      (lookupKey "w2" chF2.results).isSome = true :=
  result_written_before_command_removed true engine0 true true chW2 "w2" (by decide)
    chF2 (by decide)

def k4 : KeeperState :=
  { running := true, connected := false, last_heartbeat := 0, last_reconnect_attempt := 90,
    heartbeat_interval := 30, reconnect_interval := 60, lock_handle := true }

def env4 : IterEnv :=
  { now := 100, connectOk := true, hbOk := true, writeOk := true, removeOk := true,
    stopSignal := false, shutdownOk := true }

def ch4 : Channel :=
  { commands := [("cmd1", some { command := "ping", params := [] })], results := [] }

/-- C4 counterexample: a running but disconnected keeper (no reconnect
due: 100 - 90 < 60) runs a full main-loop iteration while a command entry
is visible in the channel — yet no result of any kind is written for it
(`results` stays empty) and the command entry is left sitting in the
channel, because the loop only calls `_check_commands` when connected
(mt5_keeper.py, line 862).  The claimed `not connected` Failure Result
for each visible command is never produced. -/
theorem disconnected_commands_get_no_result_cex :
    (loopIter engine0 env4 k4 ch4).2.results = [] ∧
    lookupKey "cmd1" (loopIter engine0 env4 k4 ch4).2.results = none ∧
    (loopIter engine0 env4 k4 ch4).2.commands = ch4.commands ∧
    (loopIter engine0 env4 k4 ch4).1.running = true := by
  exact ⟨rfl, rfl, rfl, rfl⟩

/-- C4 amended: while the keeper stays disconnected (either no reconnect
attempt is due this iteration or the attempt fails), the main loop keeps
iterating — `running` is preserved, so the lock stays held and stop
signals are honored — but command entries are not processed at all: the
channel is left exactly as it was, with no Result (of any kind) written.
The `not connected` failure of `_execute_command` (mt5_keeper.py, lines
407-408) would only be raised if dispatch were reached while
disconnected. -/
theorem disconnected_loop_leaves_channel_unchanged (engine : Engine) (env : IterEnv)
    (k : KeeperState) (ch : Channel) (hc : k.connected = false)
    (hstay : env.now - k.last_reconnect_attempt < k.reconnect_interval ∨
      env.connectOk = false) :
    (loopIter engine env k ch).2 = ch ∧
    (loopIter engine env k ch).1.running = k.running ∧
    (loopIter engine env k ch).1.connected = false ∧
    (∀ ct ps, execute_command false engine ct ps = Except.error "MT5 non connesso") := by
  have hk1 : (reconnect_step env.now env.connectOk k).connected = false ∧
      (reconnect_step env.now env.connectOk k).running = k.running := by
    by_cases hdue : k.reconnect_interval ≤ env.now - k.last_reconnect_attempt
    · rcases hstay with hlt | hko
      · exact absurd hdue (Nat.not_le_of_lt hlt)
      · simp [reconnect_step, hc, hdue, connect_mt5, hko]
    · simp [reconnect_step, hc, hdue]
  refine ⟨?_, ?_, ?_, fun ct ps => rfl⟩
  · simp [loopIter, hk1.1]
  · simp [loopIter, hk1.1, hk1.2]
  · simp [loopIter, hk1.1]

theorem disconnected_loop_leaves_channel_unchanged_witness :
    (loopIter engine0 env4 k4 ch4).2 = ch4 ∧
    (loopIter engine0 env4 k4 ch4).1.running = k4.running ∧
    (loopIter engine0 env4 k4 ch4).1.connected = false :=
  ⟨(disconnected_loop_leaves_channel_unchanged engine0 env4 k4 ch4 (by decide)
      (Or.inl (by decide))).1,
   (disconnected_loop_leaves_channel_unchanged engine0 env4 k4 ch4 (by decide)
      (Or.inl (by decide))).2.1,
   (disconnected_loop_leaves_channel_unchanged engine0 env4 k4 ch4 (by decide)
      (Or.inl (by decide))).2.2.1⟩

def ch6 : Channel := { commands := [("bad", none)], results := [] }

/-- C6 counterexample: a malformed command entry (`json.load` raises) is
not left in place: `_process_command_file` catches the exception, writes
an error Result for it, and then removes the offending command entry
(mt5_keeper.py, line 371 runs also on the error response built at lines
355-361).  After processing, the commands collection is empty. -/
theorem malformed_command_deleted_cex :
    (processCommandFile true engine0 true true ch6 "bad").commands = [] ∧
    lookupKey "bad" (processCommandFile true engine0 true true ch6 "bad").commands = none ∧
    lookupKey "bad" (processCommandFile true engine0 true true ch6 "bad").results =
      some { command_id := "bad", status := "error", result := none,
             error := some read_failure_message } := by
  exact ⟨rfl, rfl, rfl⟩

/-- C6 amended: on a malformed or unreadable command entry the keeper
logs the error and publishes an error Result under that id, and then
removes the command entry just as for a well-formed one (when the removal
succeeds).  The offending entry is left in place only when writing the
result file fails, in which case the channel is untouched. -/
theorem malformed_command_error_result_then_removed (connected : Bool) (engine : Engine)
    (removeOk : Bool) (ch : Channel) (id : String)
    (h : lookupKey id ch.commands = some none) :
    lookupKey id (processCommandFile connected engine true removeOk ch id).results =
      some { command_id := id, status := "error", result := none,
             error := some read_failure_message } ∧
    (removeOk = true →
      lookupKey id (processCommandFile connected engine true removeOk ch id).commands = none) ∧
    processCommandFile connected engine false removeOk ch id = ch := by
  refine ⟨?_, ?_, by simp [processCommandFile]⟩
  · rw [processCommandFile_results_write, h]
    exact lookupKey_insertKey_self _ _ _
  · intro hrm
    subst hrm
    simp [processCommandFile]
    exact lookupKey_eraseKey_self _ _

theorem malformed_command_error_result_then_removed_witness :
    lookupKey "bad" (processCommandFile true engine0 true true ch6 "bad").results =
      some { command_id := "bad", status := "error", result := none,
             error := some read_failure_message } ∧
    lookupKey "bad" (processCommandFile true engine0 true true ch6 "bad").commands = none ∧
    processCommandFile true engine0 false true ch6 "bad" = ch6 :=
  ⟨(malformed_command_error_result_then_removed true engine0 true ch6 "bad" (by decide)).1,
   (malformed_command_error_result_then_removed true engine0 true ch6 "bad" (by decide)).2.1
     rfl,
   (malformed_command_error_result_then_removed true engine0 true ch6 "bad" (by decide)).2.2⟩

def k7 : KeeperState :=
  { running := true, connected := false, last_heartbeat := 5, last_reconnect_attempt := 100,
    heartbeat_interval := 30, reconnect_interval := 60, lock_handle := true }

/-- C7 counterexample: a reconnect attempt that is due (1000 - 100 ≥ 60)
and succeeds sets `connected := true` and records the attempt time, but
does NOT reset the heartbeat timing: `last_heartbeat` keeps its stale
value 5 instead of being reset to the attempt time 1000 (`_connect_mt5`
never assigns `last_heartbeat`), so a heartbeat probe is immediately
overdue. -/
theorem reconnect_success_no_heartbeat_reset_cex :
    (reconnect_step 1000 true k7).connected = true ∧
    (reconnect_step 1000 true k7).last_reconnect_attempt = 1000 ∧
    (reconnect_step 1000 true k7).last_heartbeat = 5 ∧
    (reconnect_step 1000 true k7).last_heartbeat ≠ 1000 := by
  exact ⟨rfl, rfl, rfl, by decide⟩

/-- C7 amended: whenever the keeper is disconnected and at least
`reconnect_interval` seconds have elapsed since the last attempt, the
reconnect block attempts to (re)connect and records the attempt time
regardless of the outcome; a successful attempt sets `connected := true`
(and a failed one leaves it false); but the heartbeat timing is NOT
reset — `last_heartbeat` is unchanged by the reconnect, so an overdue
probe fires in the same iteration and only its own success would update
`last_heartbeat`. -/
theorem reconnect_supervision_records_attempt (now : Nat) (connectOk : Bool)
    (k : KeeperState) (hd : k.connected = false)
    (hdue : k.reconnect_interval ≤ now - k.last_reconnect_attempt) :
    (reconnect_step now connectOk k).last_reconnect_attempt = now ∧
    (reconnect_step now connectOk k).connected = connectOk ∧
    (reconnect_step now connectOk k).last_heartbeat = k.last_heartbeat := by
  cases connectOk <;> simp [reconnect_step, hd, hdue, connect_mt5]

theorem reconnect_supervision_records_attempt_witness :
    (reconnect_step 1000 true k7).last_reconnect_attempt = 1000 ∧
    (reconnect_step 1000 true k7).connected = true ∧
    (reconnect_step 1000 true k7).last_heartbeat = k7.last_heartbeat :=
  reconnect_supervision_records_attempt 1000 true k7 (by decide) (by decide)

/-- C5: once the result wait begins, `send_command` leaves it without
reading a result only through the two abort exits, and each only under
its stated condition: the `TimeoutError` exit fires at an iteration where
the result file is absent and strictly more than `timeout` seconds have
elapsed, and the `RuntimeError` keeper-gone exit fires at an iteration
where the result file is absent, the liveness pre-check failed, and at
most `timeout` seconds have elapsed — i.e. before the timeout, not after
waiting it out (the timeout test at line 203 runs first, so a late
liveness failure surfaces as a timeout instead).  On both abort exits the
call's own command entry is best-effort deleted from the channel. -/
theorem send_command_abort_paths (t : Nat) (obs : List PollObs) (e : WaitExit) (i : Nat)
    (ch : Channel) (id : String)
    (h : waitForResult t obs = some (e, i)) (he : e ≠ WaitExit.readResult) :
    (∃ o, obs.get? i = some o ∧ o.result_present = false ∧
      ((e = WaitExit.timeoutError ∧ t < o.elapsed) ∨
       (e = WaitExit.keeperGone ∧ o.keeper_alive = false ∧ o.elapsed ≤ t))) ∧
    lookupKey id (sendCommandAbortEffect e ch id).commands = none := by
  constructor
  · induction obs generalizing i with
    | nil => simp [waitForResult] at h
    | cons o rest ih =>
      by_cases hr : o.result_present = true
      · rw [waitForResult, if_pos hr] at h
        obtain ⟨he', _⟩ := Prod.mk.injEq .. ▸ Option.some.injEq .. ▸ h
        exact absurd he'.symm he
      · rw [waitForResult, if_neg hr] at h
        by_cases ht : t < o.elapsed
        · rw [if_pos ht] at h
          obtain ⟨he', hi⟩ := Prod.mk.injEq .. ▸ Option.some.injEq .. ▸ h
          refine ⟨o, by rw [← hi]; rfl, by simpa using hr, Or.inl ⟨he'.symm, ht⟩⟩
        · rw [if_neg ht] at h
          by_cases ha : o.keeper_alive = false
          · rw [if_pos ha] at h
            obtain ⟨he', hi⟩ := Prod.mk.injEq .. ▸ Option.some.injEq .. ▸ h
            refine ⟨o, by rw [← hi]; rfl, by simpa using hr,
              Or.inr ⟨he'.symm, ha, Nat.le_of_not_lt ht⟩⟩
          · rw [if_neg ha] at h
            cases hrec : waitForResult t rest with
            | none => rw [hrec] at h; simp at h
            | some p =>
              rw [hrec] at h
              simp only [Option.map_some', Option.some.injEq] at h
              obtain ⟨he', hi⟩ := Prod.mk.injEq .. ▸ h
              obtain ⟨o', ho', hrp, hcond⟩ := ih p.2 (by rw [hrec, ← he'])
              exact ⟨o', by rw [← hi]; simpa using ho', hrp, hcond⟩
  · cases e with
    | readResult => exact absurd rfl he
    | timeoutError =>
      simpa [sendCommandAbortEffect] using lookupKey_eraseKey_self id ch.commands
    | keeperGone =>
      simpa [sendCommandAbortEffect] using lookupKey_eraseKey_self id ch.commands

def obsW : List PollObs :=
  [{ result_present := false, elapsed := 4, keeper_alive := true },
   { result_present := false, elapsed := 11, keeper_alive := true }]

def chW5 : Channel :=
  { commands := [("w5", some { command := "ping", params := [] })], results := [] }

theorem send_command_abort_paths_witness :
    (∃ o, obsW.get? 1 = some o ∧ o.result_present = false ∧
      ((WaitExit.timeoutError = WaitExit.timeoutError ∧ 10 < o.elapsed) ∨
       (WaitExit.timeoutError = WaitExit.keeperGone ∧ o.keeper_alive = false ∧
         o.elapsed ≤ 10))) ∧
    lookupKey "w5" (sendCommandAbortEffect WaitExit.timeoutError chW5 "w5").commands = none :=
  send_command_abort_paths 10 obsW WaitExit.timeoutError 1 chW5 "w5" (by decide) (by decide)

end MT5
